import Mathlib

/-!
Shallow embedding of `src/python/databases/visibilitymodel.py` (OpenRAVE
visibility-model pipeline): the feasibility scan `computeValidTransform`,
the density pruner `pruneTransformations`, the body-enable scoping of
`generate`, and the persistence entry point `load`.

Numeric scalars are embedded as rationals `ℚ` (the Python code computes with
floats; every claim under study is about control flow, data flow and exact
selection logic, none about rounding).  External collaborators (IK solver,
visibility oracle, sensors, the reachability cloud) are inputs of the
embedded functions, mirroring how the source calls out to them.
-/

namespace VisibilityModel

/-- Modelled from the spec: a 3-vector (translation component of a pose,
or a point of the reachability cloud), spec section 3 "Pose". -/
structure V3 where
  x : ℚ
  y : ℚ
  z : ℚ
deriving DecidableEq, Repr

/-- Modelled from the spec: a rotation quaternion (w, x, y, z), spec
section 3 "Pose" ("3-vector translation + 4-element unit quaternion"). -/
structure Quat where
  w : ℚ
  x : ℚ
  y : ℚ
  z : ℚ
deriving DecidableEq, Repr

/-- Modelled from the spec: a compact pose, quaternion first then
translation, matching the OpenRAVE 7-vector layout `[q0 q1 q2 q3 x y z]`
(the source indexes translations as columns `4:7`). -/
structure Pose where
  q : Quat
  t : V3
deriving DecidableEq, Repr

/-- The identity pose (unit quaternion, zero translation); used as the
out-of-range default for list indexing, which the Python source never hits. -/
def poseDefault : Pose := ⟨⟨1, 0, 0, 0⟩, ⟨0, 0, 0⟩⟩

/-- Modelled from the spec: Hamilton product of two quaternions, the
rotation part of pose composition (spec section 4.1, "compose rigid
transforms"). -/
def quatMult (a b : Quat) : Quat :=
  ⟨a.w * b.w - a.x * b.x - a.y * b.y - a.z * b.z,
   a.w * b.x + a.x * b.w + a.y * b.z - a.z * b.y,
   a.w * b.y - a.x * b.z + a.y * b.w + a.z * b.x,
   a.w * b.z + a.x * b.y - a.y * b.x + a.z * b.w⟩

/-- Modelled from the spec: rotate a vector by a unit quaternion (the
standard rotation-matrix form of a quaternion applied to a vector). -/
def quatRotate (q : Quat) (v : V3) : V3 :=
  ⟨(1 - 2 * (q.y ^ 2 + q.z ^ 2)) * v.x + 2 * (q.x * q.y - q.z * q.w) * v.y +
      2 * (q.x * q.z + q.y * q.w) * v.z,
   2 * (q.x * q.y + q.z * q.w) * v.x + (1 - 2 * (q.x ^ 2 + q.z ^ 2)) * v.y +
      2 * (q.y * q.z - q.x * q.w) * v.z,
   2 * (q.x * q.z - q.y * q.w) * v.x + 2 * (q.y * q.z + q.x * q.w) * v.y +
      (1 - 2 * (q.x ^ 2 + q.y ^ 2)) * v.z⟩

/-- Conjugate quaternion: the inverse rotation of a unit quaternion. -/
def quatConj (q : Quat) : Quat := ⟨q.w, -q.x, -q.y, -q.z⟩

/-- Vector addition on `V3`. -/
def v3add (a b : V3) : V3 := ⟨a.x + b.x, a.y + b.y, a.z + b.z⟩

/-- Vector negation on `V3`. -/
def v3neg (a : V3) : V3 := ⟨-a.x, -a.y, -a.z⟩

/-- Modelled from the spec: openravepy's `poseMult` (pose composition,
spec section 4.1): quaternions multiply, the second translation is rotated
by the first rotation and added to the first translation. -/
def poseMult (p0 p1 : Pose) : Pose :=
  ⟨quatMult p0.q p1.q, v3add p0.t (quatRotate p0.q p1.t)⟩

/-- Modelled from the spec: openravepy's `poseMultArrayT` as used at
`visibilitymodel.py:228` — left-multiply every pose of the array by a fixed
pose. -/
def poseMultArrayT (p0 : Pose) (ps : List Pose) : List Pose :=
  ps.map (fun p => poseMult p0 p)

/-- Modelled from the spec: openravepy's `invertPoses` applied to one pose
(spec section 4.1, closed-form inverse of a rigid transform): conjugate
quaternion, translation is the negated rotation of the original translation
by the inverse rotation. -/
def invertPose (p : Pose) : Pose :=
  ⟨quatConj p.q, v3neg (quatRotate (quatConj p.q) p.t)⟩

/-- 4×4 homogeneous transform matrices over `ℚ` (the `numpy` arrays the
source manipulates with `dot` and `linalg.inv`). -/
abbrev Mat4 := Matrix (Fin 4) (Fin 4) ℚ

/-- Modelled from the spec: openravepy's `matrixFromPose` (spec section
4.1, pose-to-matrix conversion): rotation block from the quaternion,
translation in the last column, homogeneous last row. -/
def matrixFromPose (p : Pose) : Mat4 :=
  !![1 - 2 * (p.q.y ^ 2 + p.q.z ^ 2), 2 * (p.q.x * p.q.y - p.q.z * p.q.w),
       2 * (p.q.x * p.q.z + p.q.y * p.q.w), p.t.x;
     2 * (p.q.x * p.q.y + p.q.z * p.q.w), 1 - 2 * (p.q.x ^ 2 + p.q.z ^ 2),
       2 * (p.q.y * p.q.z - p.q.x * p.q.w), p.t.y;
     2 * (p.q.x * p.q.z - p.q.y * p.q.w), 2 * (p.q.y * p.q.z + p.q.x * p.q.w),
       1 - 2 * (p.q.x ^ 2 + p.q.y ^ 2), p.t.z;
     0, 0, 0, 1]

/-- Modelled from the spec: `numpy.linalg.inv` on a 4×4 matrix, in the
closed adjugate form (agrees with the matrix inverse whenever the matrix is
invertible, which rigid transforms always are). -/
def matinv (A : Mat4) : Mat4 := (A.det)⁻¹ • A.adjugate

/-- Robot joint values, indexed by DOF index (`robot.GetJointValues()` order). -/
abbrev Joints := List ℚ

/-- `robot.SetJointValues(values, dofindices)` (as called at
`visibilitymodel.py:208` with `values = s`, `dofindices = manip.GetArmJoints()`):
each value is written to the joint slot named by the corresponding index;
all other joints keep their values. -/
def setJointValues (joints : Joints) : List ℕ → List ℚ → Joints
  | [], _ => joints
  | _ :: _, [] => joints
  | idx :: idxs, v :: vs => setJointValues (joints.set idx v) idxs vs

/-- The scene state and external collaborators read by
`computeValidTransform` (lines 194-214).  The sensor and end-effector
transforms are functions of the current robot joint values (both frames are
mounted on the robot, so `SetJointValues` moves them); the IK solver and the
visibility oracle (`visualprob.ComputeVisibility`) are opaque oracles, the
latter a function of the posed robot. -/
structure Scene where
  armJoints : List ℕ
  gripperJoints : List ℕ
  sensorTransform : Joints → Mat4
  eeTransform : Joints → Mat4
  targetTransform : Mat4
  findIK : Mat4 → Bool → Option (List ℚ)
  visible : Joints → Bool

/-- Lines 203-205 of `computeValidTransform`:
`Trelative = dot(linalg.inv(attachedsensor.GetTransform()), manip.GetEndEffectorTransform())`,
`Tcamera = dot(target.GetTransform(), matrixFromPose(pose))`,
`Tgrasp = dot(Tcamera, Trelative)` — the transform handed to
`manip.FindIKSolution`. -/
def computeTgrasp (sc : Scene) (joints : Joints) (pose : Pose) : Mat4 :=
  let Trelative := matinv (sc.sensorTransform joints) * sc.eeTransform joints
  let Tcamera := sc.targetTransform * matrixFromPose pose
  Tcamera * Trelative

/-- One iteration of the `computeValidTransform` scan recorded for the
proofs: the candidate index scanned, the joint values on entry to the
iteration, the matrix handed to `FindIKSolution`, whether IK succeeded, and
whether the visibility oracle was invoked. -/
structure ScanEvent where
  idx : ℕ
  jointsAtEntry : Joints
  ikInput : Mat4
  ikSuccess : Bool
  visCalled : Bool

/-- Mutable state threaded through the `computeValidTransform` scan: the
robot joint values, the accumulated `validjoints` list, and the per-iteration
event trace. -/
structure ScanState where
  joints : Joints
  validjoints : List (List ℚ × ℕ)
  trace : List ScanEvent

/-- The `for i in order:` loop of `computeValidTransform` (lines 201-214).
Per candidate: build `Tgrasp`, call IK; on failure continue; on success
write the solution to the arm joints, optionally consult the visibility
oracle (skipping the candidate when invisible), record `(s, i)`, and in
first-feasible mode (`returnall=False`) return at once.  When the loop
exhausts the order the Python function falls off its end, i.e. returns
`None` — hence the `(none, st)` base case. -/
def cvtLoop (sc : Scene) (poses : List Pose)
    (returnall checkcollision computevisibility : Bool) :
    List ℕ → ScanState → Option (List (List ℚ × ℕ)) × ScanState
  | [], st => (none, st)
  | i :: rest, st =>
    let pose := poses.getD i poseDefault
    match sc.findIK (computeTgrasp sc st.joints pose) checkcollision with
    | none =>
      cvtLoop sc poses returnall checkcollision computevisibility rest
        { st with trace :=
            st.trace ++ [⟨i, st.joints, computeTgrasp sc st.joints pose, false, false⟩] }
    | some s =>
      let joints2 := setJointValues st.joints sc.armJoints s
      let trace2 :=
        st.trace ++ [⟨i, st.joints, computeTgrasp sc st.joints pose, true, computevisibility⟩]
      if computevisibility && !(sc.visible joints2) then
        cvtLoop sc poses returnall checkcollision computevisibility rest
          { joints := joints2, validjoints := st.validjoints, trace := trace2 }
      else
        let vj := st.validjoints ++ [(s, i)]
        if returnall then
          cvtLoop sc poses returnall checkcollision computevisibility rest
            { joints := joints2, validjoints := vj, trace := trace2 }
        else
          (some vj, { joints := joints2, validjoints := vj, trace := trace2 })

/-- `VisibilityModel.computeValidTransform` (lines 194-214).  `order` is the
scan order: `xrange(len(self.visibilitytransforms))` when `randomize` is
false, a random permutation of it otherwise (the permutation drawn by
`random.permutation` is an input here).  The first component is the Python
return value (`none` encodes Python's `None`); the second is the final scan
state (the surrounding `with self.robot` restores the joints after the call,
which does not affect the return value). -/
def computeValidTransform (sc : Scene) (poses : List Pose) (joints0 : Joints)
    (returnall checkcollision computevisibility : Bool) (order : List ℕ) :
    Option (List (List ℚ × ℕ)) × ScanState :=
  cvtLoop sc poses returnall checkcollision computevisibility order ⟨joints0, [], []⟩

/-- Python exceptions that the embedded code can raise. -/
inductive PyErr
  | unboundLocalError
  | valueError
  | ioError
  | assertionError
  | innerError
deriving DecidableEq, Repr

/-- Squared Euclidean distance between two points. -/
def sqDist (a b : V3) : ℚ :=
  (a.x - b.x) ^ 2 + (a.y - b.y) ^ 2 + (a.z - b.z) ^ 2

/-- `kdtree.kFRSearchArray(pts, thresh**2, 0, thresh*0.01)[2]` for a single
query point (line 230): the number of reachability-cloud samples whose
squared distance to the query is within the squared radius.  Modelled from
the spec ("count of neighboring reachability samples within `thresh` ...
using thresh² against a squared-distance index"); the ANN approximation
tolerance `thresh*0.01` is modelled as the exact count. -/
def neighborCount (cloud : List V3) (p : V3) (thresh : ℚ) : ℕ :=
  (cloud.filter (fun c => decide (sqDist c p ≤ thresh ^ 2))).length

/-- Lines 230-232 of `pruneTransformations`:
`I = flatnonzero(transdensity > numminneighs)` (indices in ascending order,
strict comparison) and `visibilitytransforms[I[argsort(-transdensity[I])]]`
(the kept candidates reordered by descending neighbor count; `numpy.argsort`
does not fix the relative order of ties, the embedding sorts them with
insertion sort). -/
def selectSorted (vts : List Pose) (density : List ℕ) (numminneighs : ℕ) : List Pose :=
  let I := (List.range vts.length).filter (fun k => decide (numminneighs < density.getD k 0))
  let Isorted := List.insertionSort (fun a b => density.getD b 0 ≤ density.getD a 0) I
  Isorted.map (fun k => vts.getD k poseDefault)

/-- The scene state read by `pruneTransformations`.  `baseRelTarget` is
`poseFromMatrix(dot(linalg.inv(manip.GetBase().GetTransform()), target.GetTransform()))`
of line 228, supplied as a pose: the matrix-to-pose direction of the
lossless external conversion (spec section 4.1) needs square roots, which
rational coordinates do not have, so the embedding receives the converted
pose directly.  `rcloud` is the translation point cloud behind
`self.rmodel.ComputeNN(translationonly)`; `rmodelLoads` says whether
`kinematicreachability.ReachabilityModel(robot).load()` succeeds. -/
structure PruneScene where
  baseRelTarget : Pose
  rcloud : List V3
  rmodelLoads : Bool

/-- The `VisibilityModel` attributes that `pruneTransformations` touches:
the stored candidate set `self.visibilitytransforms` and whether
`self.rmodel` is loaded (not `None`). -/
structure ModelState where
  visibilitytransforms : List Pose
  rmodelLoaded : Bool
deriving Repr

/-- Lines 223-233 of `pruneTransformations`, entered once `self.rmodel` is
available: optional `maxdist` pre-filter (`invertPoses(...)[:,6] < maxdist`
compares column 6, the z-translation of each inverted pose), re-expression
of the candidates in the manipulator base frame (line 228), then for
`translationonly=True` the radius-count query and the
keep-and-sort-descending selection; for `translationonly=False` the trailing
`raise ValueError('not supported')` of line 233. -/
def pruneLoaded (sc : PruneScene) (m : ModelState) (thresh : ℚ) (numminneighs : ℕ)
    (maxdist : Option ℚ) (translationonly : Bool) :
    Except PyErr (List Pose) × ModelState :=
  let visibilitytransforms :=
    match maxdist with
    | some d => m.visibilitytransforms.filter (fun p => decide ((invertPose p).t.z < d))
    | none => m.visibilitytransforms
  let newtrans := poseMultArrayT sc.baseRelTarget visibilitytransforms
  if translationonly then
    let transdensity := newtrans.map (fun p => neighborCount sc.rcloud p.t thresh)
    (.ok (selectSorted visibilitytransforms transdensity numminneighs), m)
  else
    (.error .valueError, m)

/-- `VisibilityModel.pruneTransformations` (lines 216-233).  When
`self.rmodel` is `None` the code builds a `ReachabilityModel` and tries to
load it; on failure it resets `self.rmodel` to `None` and executes
`return array(visibilitytransforms)` — but `visibilitytransforms` is a local
name first assigned only at lines 225/227, so this line raises
`UnboundLocalError` instead of returning anything. -/
def pruneTransformations (sc : PruneScene) (m : ModelState) (thresh : ℚ)
    (numminneighs : ℕ) (maxdist : Option ℚ) (translationonly : Bool) :
    Except PyErr (List Pose) × ModelState :=
  if m.rmodelLoaded then
    pruneLoaded sc m thresh numminneighs maxdist translationonly
  else if sc.rmodelLoads then
    pruneLoaded sc { m with rmodelLoaded := true } thresh numminneighs maxdist translationonly
  else
    (.error .unboundLocalError, m)

/-- Pointwise body-enable update: `body.Enable(flag)` for the body with the
given environment id. -/
def updateEnable (st : ℕ → Bool) (i : ℕ) (flag : Bool) : ℕ → Bool :=
  fun j => if j = i then flag else st j

/-- Run a list of `Enable` calls in order. -/
def applyAll (ps : List (ℕ × Bool)) (st : ℕ → Bool) : ℕ → Bool :=
  ps.foldl (fun s p => updateEnable s p.1 p.2) st

/-- The environment state relevant to the body toggling in `generate`
(lines 135-156): the body ids returned by `env.GetBodies()`, the ids of the
robot and the target, and the current enable flag of every body. -/
structure GenScene where
  robotId : ℕ
  targetId : ℕ
  bodyIds : List ℕ
  enabled : ℕ → Bool

/-- Line 135: `bodies = [(b,b.IsEnabled()) for b in self.env.GetBodies() if b != self.robot and b != self.target]`. -/
def generateSavedBodies (sc : GenScene) : List (ℕ × Bool) :=
  (sc.bodyIds.filter (fun i => decide (i ≠ sc.robotId) && decide (i ≠ sc.targetId))).map
    (fun i => (i, sc.enabled i))

/-- Lines 136-137: `for b in bodies: b[0].Enable(False)` — the enable state
in force while the `try` block of `generate` runs. -/
def generateDisabledState (sc : GenScene) : ℕ → Bool :=
  applyAll ((generateSavedBodies sc).map (fun p => (p.1, false))) sc.enabled

/-- Lines 154-156, the `finally` clause:
`for b,enable in bodies: b.Enable(enable)` — executed on every exit path of
the `try` block. -/
def generateFinalState (sc : GenScene) : ℕ → Bool :=
  applyAll (generateSavedBodies sc) (generateDisabledState sc)

/-- The body-enable effect of `VisibilityModel.generate` (lines 135-156).
The `try` block (sensor intrinsics capture, preshape `SetJointValues`,
`ProcessVisibilityExtents`, `SetCameraTransforms`) performs no `Enable`
call, so it is abstracted as its outcome `inner` (normal return or a raised
exception); a `try/finally` neither swallows nor alters that outcome, and
the restore loop runs in both cases. -/
def generateBodyEnable (sc : GenScene) (inner : Except PyErr Unit) :
    Except PyErr Unit × (ℕ → Bool) :=
  (inner, generateFinalState sc)

/-- The outcome of the `OpenRAVEModel.load(self)` call inside
`VisibilityModel.load` (line 90): it can raise, return `None`, or return the
persisted parameter tuple. -/
inductive LoadOutcome
  | raises (ex : PyErr)
  | returnsNone
  | returnsParams (visibilitytransforms : List Pose) (preshapes : List (List ℚ))

/-- `VisibilityModel.load` (lines 88-97).  The handler of line 96 is
`except e:` — under `from numpy import *` the name `e` is numpy's Euler
constant 2.718..., and a Python 2 `except` clause whose expression is
neither an exception class, a string nor a tuple matches the active
exception only by object identity, which a float never does (and absent
that import the lookup of `e` itself fails).  Either way no exception
raised in the `try` block is ever caught: it propagates to the caller, and
`return False` on line 97 is unreachable.  `preprocessEx` is the outcome of
the `self.preprocess()` call of line 94 (its `assert` can raise). -/
def load (base : LoadOutcome) (preprocessEx : Option PyErr) (m : ModelState) :
    Except PyErr Bool × ModelState :=
  match base with
  | .raises ex => (.error ex, m)
  | .returnsNone => (.ok false, m)
  | .returnsParams vts _preshapes =>
    let m2 := { m with visibilitytransforms := vts }
    match preprocessEx with
    | some ex => (.error ex, m2)
    | none => (.ok (decide (0 < m2.visibilitytransforms.length)), m2)

/-- The neighbor count the pruning code attaches to candidate `k` of the
stored set: the candidate is re-expressed in the manipulator base frame
(line 228) and its translation queried against the reachability cloud
(line 230). -/
def candDensity (sc : PruneScene) (vts : List Pose) (thresh : ℚ) (k : ℕ) : ℕ :=
  neighborCount sc.rcloud (poseMult sc.baseRelTarget (vts.getD k poseDefault)).t thresh

/-- Concrete scene for witnesses: one arm joint (DOF 0), one gripper joint
(DOF 1), identity transforms, an IK solver that never finds a solution, a
visibility oracle that always answers true. -/
def sceneNoIK : Scene :=
  ⟨[0], [1], fun _ => 1, fun _ => 1, 1, fun _ _ => none, fun _ => true⟩

/-- Concrete scene for witnesses: like `sceneNoIK` but the IK solver accepts
every query with the one-joint configuration `[5]`. -/
def sceneAccept : Scene :=
  { sceneNoIK with findIK := fun _ _ => some [5] }

/-- The single scan event produced by running `computeValidTransform` on
`sceneNoIK` with candidate list `[poseDefault]` and scan order `[0]`. -/
def cvtWitnessEvent : ScanEvent :=
  ⟨0, [], computeTgrasp sceneNoIK [] poseDefault, false, false⟩

/-- Concrete pruning scene for witnesses: identity base-relative pose, a
reachability cloud of ten samples at the origin, reachability model loads. -/
def pruneSceneW : PruneScene :=
  ⟨poseDefault, List.replicate 10 ⟨0, 0, 0⟩, true⟩

/-- Concrete pruning scene whose reachability model fails to load. -/
def pruneSceneNoLoad : PruneScene := ⟨poseDefault, [], false⟩

/-- Concrete generate scene for witnesses: robot id 0, target id 1, one
other body (id 2), everything enabled. -/
def genSceneW : GenScene := ⟨0, 1, [0, 1, 2], fun _ => true⟩

/-! ## Theorems -/

theorem setJointValues_getD_not_mem (idxs : List ℕ) (vs : List ℚ) (joints : Joints)
    (j : ℕ) (hj : j ∉ idxs) :
    (setJointValues joints idxs vs).getD j 0 = joints.getD j 0 := by
  induction idxs generalizing vs joints with
  | nil => simp [setJointValues]
  | cons idx idxs ih =>
    cases vs with
    | nil => simp [setJointValues]
    | cons v vs =>
      rw [setJointValues, ih _ _ (fun h => hj (List.mem_cons_of_mem _ h))]
      have hne : idx ≠ j := fun h => hj (h ▸ List.mem_cons_self _ _)
      rw [List.getD_eq_getElem?_getD, List.getElem?_set_ne hne, ← List.getD_eq_getElem?_getD]

theorem cvtLoop_joints_outside_arm (sc : Scene) (poses : List Pose)
    (ra cc cv : Bool) (j : ℕ) (hj : j ∉ sc.armJoints) (order : List ℕ) :
    ∀ st : ScanState,
      ((cvtLoop sc poses ra cc cv order st).2.joints).getD j 0 = (st.joints).getD j 0 := by
  induction order with
  | nil => intro st; rfl
  | cons i rest ih =>
    intro st
    simp only [cvtLoop]
    cases h : sc.findIK (computeTgrasp sc st.joints (poses.getD i poseDefault)) cc with
    | none => exact ih _
    | some s =>
      by_cases hv : (cv && !(sc.visible (setJointValues st.joints sc.armJoints s))) = true
      · simp only [hv, if_true]
        rw [ih]
        exact setJointValues_getD_not_mem _ _ _ _ hj
      · simp only [hv, if_false, Bool.false_eq_true]
        cases ra with
        | true =>
          simp only [if_true]
          rw [ih]
          exact setJointValues_getD_not_mem _ _ _ _ hj
        | false =>
          simp only [if_false, Bool.false_eq_true]
          exact setJointValues_getD_not_mem _ _ _ _ hj

/-- C9: when the feasibility filter accepts a candidate and applies its IK
solution, it writes only the manipulator's arm joints
(`SetJointValues(s, manip.GetArmJoints())`, line 208): every joint outside
`armJoints` — in particular every gripper joint, the gripper being disjoint
from the arm — keeps its initial (preshape) value for the whole scan, for
every scan order, so at every intermediate state as well. -/
theorem computeValidTransform_gripper_invariant (sc : Scene) (poses : List Pose)
    (joints0 : Joints) (ra cc cv : Bool) (order : List ℕ)
    (hdisj : ∀ g ∈ sc.gripperJoints, g ∉ sc.armJoints) :
    (∀ j, j ∉ sc.armJoints →
      ((computeValidTransform sc poses joints0 ra cc cv order).2.joints).getD j 0
        = joints0.getD j 0) ∧
    (∀ g ∈ sc.gripperJoints,
      ((computeValidTransform sc poses joints0 ra cc cv order).2.joints).getD g 0
        = joints0.getD g 0) := by
  constructor
  · intro j hj
    exact cvtLoop_joints_outside_arm sc poses ra cc cv j hj order ⟨joints0, [], []⟩
  · intro g hg
    exact cvtLoop_joints_outside_arm sc poses ra cc cv g (hdisj g hg) order ⟨joints0, [], []⟩

/-- Witness for C9 at a concrete scene: gripper joint 1 keeps its value. -/
theorem computeValidTransform_gripper_invariant_witness :
    ((computeValidTransform sceneAccept [poseDefault] [0, 7] true true true [0]).2.joints).getD 1 0
      = ([0, 7] : Joints).getD 1 0 :=
  (computeValidTransform_gripper_invariant sceneAccept [poseDefault] [0, 7] true true true [0]
    (by decide)).2 1 (by decide)

theorem cvtLoop_trace_invariant (sc : Scene) (poses : List Pose)
    (ra cc cv : Bool) (P : ScanEvent → Prop)
    (h1 : ∀ i js, P ⟨i, js, computeTgrasp sc js (poses.getD i poseDefault), false, false⟩)
    (h2 : ∀ i js c, P ⟨i, js, computeTgrasp sc js (poses.getD i poseDefault), true, c⟩)
    (order : List ℕ) :
    ∀ st : ScanState, (∀ ev ∈ st.trace, P ev) →
      ∀ ev ∈ (cvtLoop sc poses ra cc cv order st).2.trace, P ev := by
  induction order with
  | nil => intro st hst; exact hst
  | cons i rest ih =>
    intro st hst
    simp only [cvtLoop]
    have happ1 : ∀ ev ∈ st.trace ++
        [⟨i, st.joints, computeTgrasp sc st.joints (poses.getD i poseDefault), false, false⟩],
        P ev := by
      intro ev hev
      rcases List.mem_append.mp hev with h | h
      · exact hst ev h
      · rcases List.mem_singleton.mp h with rfl
        exact h1 i st.joints
    have happ2 : ∀ ev ∈ st.trace ++
        [⟨i, st.joints, computeTgrasp sc st.joints (poses.getD i poseDefault), true, cv⟩],
        P ev := by
      intro ev hev
      rcases List.mem_append.mp hev with h | h
      · exact hst ev h
      · rcases List.mem_singleton.mp h with rfl
        exact h2 i st.joints cv
    cases h : sc.findIK (computeTgrasp sc st.joints (poses.getD i poseDefault)) cc with
    | none => exact ih _ happ1
    | some s =>
      by_cases hv : (cv && !(sc.visible (setJointValues st.joints sc.armJoints s))) = true
      · simp only [hv, if_true]
        exact ih _ happ2
      · simp only [hv, if_false, Bool.false_eq_true]
        cases ra with
        | true =>
          simp only [if_true]
          exact ih _ happ2
        | false =>
          simp only [if_false, Bool.false_eq_true]
          exact happ2

/-- C6: for every candidate examined by the scan, the matrix handed to
`FindIKSolution` is
`Tgrasp = (target_transform * matrixFromPose(pose)) * (inv(sensor_transform) * ee_transform)`
with the sensor and end-effector transforms read at the robot state current
when the iteration starts (lines 203-206). -/
theorem computeValidTransform_ikInput (sc : Scene) (poses : List Pose)
    (joints0 : Joints) (ra cc cv : Bool) (order : List ℕ) (ev : ScanEvent)
    (hev : ev ∈ (computeValidTransform sc poses joints0 ra cc cv order).2.trace) :
    ev.ikInput =
      (sc.targetTransform * matrixFromPose (poses.getD ev.idx poseDefault)) *
        (matinv (sc.sensorTransform ev.jointsAtEntry) * sc.eeTransform ev.jointsAtEntry) := by
  refine cvtLoop_trace_invariant sc poses ra cc cv
    (fun e => e.ikInput =
      (sc.targetTransform * matrixFromPose (poses.getD e.idx poseDefault)) *
        (matinv (sc.sensorTransform e.jointsAtEntry) * sc.eeTransform e.jointsAtEntry))
    (fun i js => rfl) (fun i js c => rfl) order ⟨joints0, [], []⟩ ?_ ev hev
  intro e he
  simp at he

theorem cvtWitnessEvent_mem :
    cvtWitnessEvent ∈
      (computeValidTransform sceneNoIK [poseDefault] [] true true true [0]).2.trace :=
  List.Mem.head _

/-- Witness for C6 at a concrete scene and candidate. -/
theorem computeValidTransform_ikInput_witness :
    cvtWitnessEvent ∈
      (computeValidTransform sceneNoIK [poseDefault] [] true true true [0]).2.trace ∧
    cvtWitnessEvent.ikInput =
      (sceneNoIK.targetTransform *
          matrixFromPose ([poseDefault].getD cvtWitnessEvent.idx poseDefault)) *
        (matinv (sceneNoIK.sensorTransform cvtWitnessEvent.jointsAtEntry) *
          sceneNoIK.eeTransform cvtWitnessEvent.jointsAtEntry) :=
  ⟨cvtWitnessEvent_mem,
   computeValidTransform_ikInput sceneNoIK [poseDefault] [] true true true [0]
     cvtWitnessEvent cvtWitnessEvent_mem⟩

/-- C7: the scan consults the visibility oracle only inside the
`if s is not None:` branch (lines 207-209): a candidate whose IK query
failed never triggers a `ComputeVisibility` call. -/
theorem computeValidTransform_no_vis_on_ik_failure (sc : Scene) (poses : List Pose)
    (joints0 : Joints) (ra cc cv : Bool) (order : List ℕ) (ev : ScanEvent)
    (hev : ev ∈ (computeValidTransform sc poses joints0 ra cc cv order).2.trace)
    (hik : ev.ikSuccess = false) : ev.visCalled = false := by
  refine cvtLoop_trace_invariant sc poses ra cc cv
    (fun e => e.ikSuccess = false → e.visCalled = false)
    (fun i js => fun _ => rfl) (fun i js c => fun h => by simp at h)
    order ⟨joints0, [], []⟩ ?_ ev hev hik
  intro e he
  simp at he

/-- Witness for C7: a concrete scan in which IK fails for the only
candidate and the visibility oracle is not invoked. -/
theorem computeValidTransform_no_vis_on_ik_failure_witness :
    cvtWitnessEvent ∈
      (computeValidTransform sceneNoIK [poseDefault] [] true true true [0]).2.trace ∧
    cvtWitnessEvent.ikSuccess = false ∧ cvtWitnessEvent.visCalled = false :=
  ⟨cvtWitnessEvent_mem, rfl,
   computeValidTransform_no_vis_on_ik_failure sceneNoIK [poseDefault] [] true true true [0]
     cvtWitnessEvent cvtWitnessEvent_mem rfl⟩

/-- C1 (code-bug evidence): in exhaustive mode (`returnall=True`) the
function body of `computeValidTransform` has no `return` after the scan
loop, so the call returns Python `None` even though the scan accepted a
candidate and recorded it in `validjoints`. -/
theorem computeValidTransform_returnall_returns_none :
    (computeValidTransform sceneAccept [poseDefault] [0, 7] true true true [0]).1 = none ∧
    (computeValidTransform sceneAccept [poseDefault] [0, 7] true true true [0]).2.validjoints
      = [([5], 0)] :=
  ⟨rfl, rfl⟩

/-- C2 (code-bug evidence): when `self.rmodel` is `None` and the
reachability database fails to load, line 222 executes
`return array(visibilitytransforms)` — but `visibilitytransforms` is a
local name first assigned only later (lines 225/227), so the call raises
`UnboundLocalError` instead of returning the stored candidate set. -/
theorem pruneTransformations_missing_rmodel_raises :
    (pruneTransformations pruneSceneNoLoad ⟨[poseDefault], false⟩ (4 / 100) 10 none true).1
      = Except.error PyErr.unboundLocalError ∧
    ((pruneTransformations pruneSceneNoLoad ⟨[poseDefault], false⟩ (4 / 100) 10 none
        true).2).visibilitytransforms = [poseDefault] :=
  ⟨rfl, rfl⟩

/-- C5: with a reachability model available (already loaded or loading
successfully), a `translationonly=False` call always ends at line 233,
`raise ValueError('not supported')`: no result is ever produced by a
silent fall back to translation-only pruning. -/
theorem pruneTransformations_fullpose_raises (sc : PruneScene) (m : ModelState)
    (thresh : ℚ) (numminneighs : ℕ) (maxdist : Option ℚ)
    (h : m.rmodelLoaded = true ∨ sc.rmodelLoads = true) :
    (pruneTransformations sc m thresh numminneighs maxdist false).1
      = Except.error PyErr.valueError := by
  rcases h with h | h
  · simp [pruneTransformations, h, pruneLoaded]
  · by_cases h2 : m.rmodelLoaded = true
    · simp [pruneTransformations, h2, pruneLoaded]
    · simp [pruneTransformations, h2, h, pruneLoaded]

/-- Witness for C5 at a concrete model with the reachability model already
loaded. -/
theorem pruneTransformations_fullpose_raises_witness :
    (pruneTransformations pruneSceneNoLoad ⟨[poseDefault], true⟩ (4 / 100) 10 none false).1
      = Except.error PyErr.valueError :=
  pruneTransformations_fullpose_raises pruneSceneNoLoad ⟨[poseDefault], true⟩ (4 / 100) 10 none
    (Or.inl rfl)

/-- C10: `pruneTransformations` never writes `self.visibilitytransforms`:
it only rebinds a local of the same name (lines 225/227) and returns a
fresh array (line 232), so the stored candidate set is the same after the
call on every path — successful pruning, the `ValueError` path, and the
failed-reachability-load path. -/
theorem pruneTransformations_preserves_stored (sc : PruneScene) (m : ModelState)
    (thresh : ℚ) (numminneighs : ℕ) (maxdist : Option ℚ) (translationonly : Bool) :
    ((pruneTransformations sc m thresh numminneighs maxdist
        translationonly).2).visibilitytransforms = m.visibilitytransforms := by
  by_cases h1 : m.rmodelLoaded = true
  · cases translationonly with
    | true => simp [pruneTransformations, h1, pruneLoaded]
    | false => simp [pruneTransformations, h1, pruneLoaded]
  · by_cases h2 : sc.rmodelLoads = true
    · cases translationonly with
      | true => simp [pruneTransformations, h1, h2, pruneLoaded]
      | false => simp [pruneTransformations, h1, h2, pruneLoaded]
    · simp [pruneTransformations, h1, h2]

/-- C3 (code-bug evidence): an exception raised inside the `try` block of
`load` — e.g. the underlying `OpenRAVEModel.load` raising an IOError for a
missing or corrupt file — propagates to the caller instead of producing
`False`, because the `except e:` clause of line 96 never matches any
exception. -/
theorem load_exception_propagates :
    (load (.raises .ioError) none ⟨[], false⟩).1 = Except.error PyErr.ioError :=
  rfl

theorem applyAll_cons (p : ℕ × Bool) (ps : List (ℕ × Bool)) (st : ℕ → Bool) :
    applyAll (p :: ps) st = applyAll ps (updateEnable st p.1 p.2) := rfl

theorem applyAll_saved (ids : List ℕ) (st0 : ℕ → Bool) (st : ℕ → Bool) (j : ℕ) :
    applyAll (ids.map (fun i => (i, st0 i))) st j = if j ∈ ids then st0 j else st j := by
  induction ids generalizing st with
  | nil => simp [applyAll]
  | cons i ids ih =>
    rw [List.map_cons, applyAll_cons, ih]
    by_cases hmem : j ∈ ids
    · simp [hmem]
    · by_cases hji : j = i
      · subst hji
        simp [hmem, updateEnable]
      · simp [hmem, hji, updateEnable]

theorem generateSavedBodies_eq (sc : GenScene) :
    generateSavedBodies sc =
      (sc.bodyIds.filter (fun i => decide (i ≠ sc.robotId) && decide (i ≠ sc.targetId))).map
        (fun i => (i, sc.enabled i)) := rfl

theorem generateDisabledState_eq (sc : GenScene) (j : ℕ) :
    generateDisabledState sc j =
      if j ∈ sc.bodyIds.filter (fun i => decide (i ≠ sc.robotId) && decide (i ≠ sc.targetId))
      then false else sc.enabled j := by
  have hmap : (generateSavedBodies sc).map (fun p => (p.1, false)) =
      (sc.bodyIds.filter (fun i => decide (i ≠ sc.robotId) && decide (i ≠ sc.targetId))).map
        (fun i => (i, (fun _ : ℕ => false) i)) := by
    rw [generateSavedBodies_eq, List.map_map]
    rfl
  rw [generateDisabledState, hmap, applyAll_saved]

theorem generateFinalState_restores (sc : GenScene) (j : ℕ) :
    generateFinalState sc j = sc.enabled j := by
  rw [generateFinalState, generateSavedBodies_eq, applyAll_saved]
  by_cases hmem :
      j ∈ sc.bodyIds.filter (fun i => decide (i ≠ sc.robotId) && decide (i ≠ sc.targetId))
  · rw [if_pos hmem]
  · rw [if_neg hmem, generateDisabledState_eq, if_neg hmem]

/-- C8: the body-enable toggling of `generate` (lines 135-156) is scoped by
`try/finally`: whatever the outcome of the protected block — normal return
or a raised exception, which the `finally` clause neither swallows nor
changes — every body's enable flag is restored to its prior value; and
while the block runs, the robot and the target keep their flags (they are
excluded from the saved list of line 135) while every other environment
body is disabled. -/
theorem generate_restores_enable (sc : GenScene) (inner : Except PyErr Unit) :
    (∀ j, (generateBodyEnable sc inner).2 j = sc.enabled j) ∧
    (generateBodyEnable sc inner).1 = inner ∧
    generateDisabledState sc sc.robotId = sc.enabled sc.robotId ∧
    generateDisabledState sc sc.targetId = sc.enabled sc.targetId ∧
    (∀ j ∈ sc.bodyIds, j ≠ sc.robotId → j ≠ sc.targetId →
      generateDisabledState sc j = false) := by
  refine ⟨fun j => generateFinalState_restores sc j, rfl, ?_, ?_, ?_⟩
  · rw [generateDisabledState_eq]
    simp [List.mem_filter]
  · rw [generateDisabledState_eq]
    simp [List.mem_filter]
  · intro j hj hr ht
    rw [generateDisabledState_eq]
    simp [List.mem_filter, hj, hr, ht]

theorem getD_map_of_lt (vts : List Pose) (f : Pose → ℕ) (k : ℕ) (hk : k < vts.length) :
    (vts.map f).getD k 0 = f (vts.getD k poseDefault) := by
  have hk2 : k < (vts.map f).length := by simpa using hk
  simp [List.getD_eq_getElem?_getD, List.getElem?_map, List.getElem?_eq_getElem, hk, hk2]

theorem candDensity_bridge (sc : PruneScene) (vts : List Pose) (thresh : ℚ) (k : ℕ)
    (hk : k < vts.length) :
    ((poseMultArrayT sc.baseRelTarget vts).map
        (fun p => neighborCount sc.rcloud p.t thresh)).getD k 0
      = candDensity sc vts thresh k := by
  rw [poseMultArrayT, List.map_map]
  exact getD_map_of_lt vts _ k hk

/-- C4 (amended): with the reachability model loaded, no `maxdist`
pre-filter and `translationonly=True`, `pruneTransformations` returns
exactly the candidates whose reachability-neighbor count is strictly
greater than `numminneighs` (the code's `transdensity>numminneighs`,
line 231), ordered by descending neighbor count. -/
theorem pruneTransformations_translationonly_spec (sc : PruneScene) (m : ModelState)
    (thresh : ℚ) (numminneighs : ℕ) (hload : m.rmodelLoaded = true) :
    ∃ I : List ℕ,
      (pruneTransformations sc m thresh numminneighs none true).1 =
        Except.ok (I.map (fun k => m.visibilitytransforms.getD k poseDefault)) ∧
      I.Nodup ∧
      (∀ k, k ∈ I ↔ k < m.visibilitytransforms.length ∧
        numminneighs < candDensity sc m.visibilitytransforms thresh k) ∧
      I.Pairwise (fun a b => candDensity sc m.visibilitytransforms thresh b
        ≤ candDensity sc m.visibilitytransforms thresh a) := by
  have hres : (pruneTransformations sc m thresh numminneighs none true).1
      = Except.ok (selectSorted m.visibilitytransforms
          ((poseMultArrayT sc.baseRelTarget m.visibilitytransforms).map
            (fun p => neighborCount sc.rcloud p.t thresh)) numminneighs) := by
    simp [pruneTransformations, hload, pruneLoaded]
  refine ⟨List.insertionSort
      (fun a b => ((poseMultArrayT sc.baseRelTarget m.visibilitytransforms).map
          (fun p => neighborCount sc.rcloud p.t thresh)).getD b 0
        ≤ ((poseMultArrayT sc.baseRelTarget m.visibilitytransforms).map
          (fun p => neighborCount sc.rcloud p.t thresh)).getD a 0)
      ((List.range m.visibilitytransforms.length).filter
        (fun k => decide (numminneighs <
          ((poseMultArrayT sc.baseRelTarget m.visibilitytransforms).map
            (fun p => neighborCount sc.rcloud p.t thresh)).getD k 0))), ?_, ?_, ?_, ?_⟩
  · rw [hres]
    rfl
  · exact (List.perm_insertionSort _ _).nodup_iff.mpr
      ((List.nodup_range _).filter _)
  · intro k
    rw [List.mem_insertionSort, List.mem_filter, List.mem_range]
    constructor
    · rintro ⟨hk, hd⟩
      rw [decide_eq_true_eq] at hd
      rw [candDensity_bridge sc m.visibilitytransforms thresh k hk] at hd
      exact ⟨hk, hd⟩
    · rintro ⟨hk, hd⟩
      refine ⟨hk, ?_⟩
      rw [decide_eq_true_eq, candDensity_bridge sc m.visibilitytransforms thresh k hk]
      exact hd
  · have ht : IsTotal ℕ
        (fun a b => ((poseMultArrayT sc.baseRelTarget m.visibilitytransforms).map
            (fun p => neighborCount sc.rcloud p.t thresh)).getD b 0
          ≤ ((poseMultArrayT sc.baseRelTarget m.visibilitytransforms).map
            (fun p => neighborCount sc.rcloud p.t thresh)).getD a 0) :=
      ⟨fun a b => le_total _ _⟩
    have htr : IsTrans ℕ
        (fun a b => ((poseMultArrayT sc.baseRelTarget m.visibilitytransforms).map
            (fun p => neighborCount sc.rcloud p.t thresh)).getD b 0
          ≤ ((poseMultArrayT sc.baseRelTarget m.visibilitytransforms).map
            (fun p => neighborCount sc.rcloud p.t thresh)).getD a 0) :=
      ⟨fun a b c h1 h2 => le_trans h2 h1⟩
    have hsorted := List.sorted_insertionSort
      (fun a b => ((poseMultArrayT sc.baseRelTarget m.visibilitytransforms).map
          (fun p => neighborCount sc.rcloud p.t thresh)).getD b 0
        ≤ ((poseMultArrayT sc.baseRelTarget m.visibilitytransforms).map
          (fun p => neighborCount sc.rcloud p.t thresh)).getD a 0)
      ((List.range m.visibilitytransforms.length).filter
        (fun k => decide (numminneighs <
          ((poseMultArrayT sc.baseRelTarget m.visibilitytransforms).map
            (fun p => neighborCount sc.rcloud p.t thresh)).getD k 0)))
    refine List.Pairwise.imp_of_mem ?_ hsorted
    intro a b ha hb hr
    rw [List.mem_insertionSort, List.mem_filter, List.mem_range] at ha hb
    rw [← candDensity_bridge sc m.visibilitytransforms thresh a ha.1,
      ← candDensity_bridge sc m.visibilitytransforms thresh b hb.1]
    exact hr

/-- Witness for C4 at a concrete scene: one candidate, a ten-sample cloud
at the origin. -/
theorem pruneTransformations_translationonly_spec_witness :
    ∃ I : List ℕ,
      (pruneTransformations pruneSceneW ⟨[poseDefault], true⟩ 1 10 none true).1 =
        Except.ok (I.map (fun k => ([poseDefault] : List Pose).getD k poseDefault)) ∧
      I.Nodup ∧
      (∀ k, k ∈ I ↔ k < ([poseDefault] : List Pose).length ∧
        10 < candDensity pruneSceneW [poseDefault] 1 k) ∧
      I.Pairwise (fun a b => candDensity pruneSceneW [poseDefault] 1 b
        ≤ candDensity pruneSceneW [poseDefault] 1 a) :=
  pruneTransformations_translationonly_spec pruneSceneW ⟨[poseDefault], true⟩ 1 10 rfl

theorem poseMult_default_default : poseMult poseDefault poseDefault = poseDefault := by
  simp only [poseMult, quatMult, quatRotate, v3add, poseDefault, Pose.mk.injEq,
    Quat.mk.injEq, V3.mk.injEq]
  norm_num

theorem neighborCount_witness_cloud :
    neighborCount pruneSceneW.rcloud ⟨0, 0, 0⟩ 1 = 10 := by
  have hp : (fun c => decide (sqDist c ⟨0, 0, 0⟩ ≤ (1 : ℚ) ^ 2)) (⟨0, 0, 0⟩ : V3)
      = true := by
    rw [decide_eq_true_eq]
    norm_num [sqDist]
  rw [neighborCount]
  show ((List.replicate 10 ⟨0, 0, 0⟩).filter
    (fun c => decide (sqDist c ⟨0, 0, 0⟩ ≤ (1 : ℚ) ^ 2))).length = 10
  rw [List.filter_replicate, if_pos hp]
  exact List.length_replicate 10 _

/-- C4 counterexample: with `numminneighs = 10` and a single candidate that
has exactly 10 reachability neighbors within the threshold, the claimed
"at least `numminneighs`" rule would keep the candidate, but the code's
strict `transdensity>numminneighs` comparison (line 231) drops it: the
pruned result is empty. -/
theorem pruneTransformations_at_least_counterexample :
    candDensity pruneSceneW [poseDefault] 1 0 = 10 ∧
    (pruneTransformations pruneSceneW ⟨[poseDefault], true⟩ 1 10 none true).1
      = Except.ok [] := by
  have hcd : candDensity pruneSceneW [poseDefault] 1 0 = 10 := by
    rw [candDensity]
    show neighborCount pruneSceneW.rcloud
      (poseMult pruneSceneW.baseRelTarget (([poseDefault] : List Pose).getD 0 poseDefault)).t 1 = 10
    have hb : pruneSceneW.baseRelTarget = poseDefault := rfl
    have hg : ([poseDefault] : List Pose).getD 0 poseDefault = poseDefault := rfl
    rw [hb, hg, poseMult_default_default]
    exact neighborCount_witness_cloud
  refine ⟨hcd, ?_⟩
  have htd : (poseMultArrayT pruneSceneW.baseRelTarget [poseDefault]).map
      (fun p => neighborCount pruneSceneW.rcloud p.t 1) = [10] := by
    have hb : pruneSceneW.baseRelTarget = poseDefault := rfl
    rw [hb, poseMultArrayT, List.map_cons, List.map_nil, List.map_cons, List.map_nil,
      poseMult_default_default]
    rw [show (poseDefault.t : V3) = ⟨0, 0, 0⟩ from rfl, neighborCount_witness_cloud]
  have hres : (pruneTransformations pruneSceneW ⟨[poseDefault], true⟩ 1 10 none true).1
      = Except.ok (selectSorted [poseDefault]
          ((poseMultArrayT pruneSceneW.baseRelTarget [poseDefault]).map
            (fun p => neighborCount pruneSceneW.rcloud p.t 1)) 10) := by
    simp [pruneTransformations, pruneLoaded]
  rw [hres, htd]
  rfl

/-- Witness for C8: in the concrete scene, body 2 is restored after a
raising run and is disabled during the protected block. -/
theorem generate_restores_enable_witness :
    (generateBodyEnable genSceneW (Except.error PyErr.innerError)).2 2 = genSceneW.enabled 2 ∧
    generateDisabledState genSceneW 2 = false :=
  ⟨(generate_restores_enable genSceneW (Except.error PyErr.innerError)).1 2,
   (generate_restores_enable genSceneW (Except.error PyErr.innerError)).2.2.2.2 2
     (by decide) (by decide) (by decide)⟩

end VisibilityModel
